import Mathlib

/-!
Shallow embedding of the serverless-cloudwatch-retention plugin
(src/plugin.js, class CloudwatchPolicyPlugin).

The CloudFormation template is modelled as an association list from resource
identifier to resource, preserving the object-key iteration order of the
JavaScript original.  The two external collaborators are modelled by the
values they deliver to the promise chain: the CloudFormation describeStacks
call (StackQuery) by an optional error, and the CloudWatchLogs
describeLogGroups call (InventoryQuery) by the list of log-group names it
reports.  The promise chain of addCloudwatchPolicy is embedded as a sequential
function that also records the trace of external requests it issues.
-/

namespace CloudwatchRetention

/-- The message attached to a provider error, as in error.providerError.message. -/
structure ProviderError where
  message : String
deriving DecidableEq, Repr

/-- A failure delivered by provider.request, carrying an HTTP-like status code
and an optional structured provider error. -/
structure QueryError where
  statusCode : Nat
  providerError : Option ProviderError
deriving DecidableEq, Repr

/-- The Properties record of a CloudFormation resource: the LogGroupName the
plugin reads, plus all remaining properties, kept opaque. -/
structure Properties where
  LogGroupName : String
  rest : List (String × String)
deriving DecidableEq, Repr

/-- A CloudFormation resource as the plugin sees it: its Type discriminator,
its Properties, an optional DependsOn sequence, and an optional
DeletionPolicy. -/
structure Resource where
  Type' : String
  Properties : Properties
  DependsOn : Option (List String)
  DeletionPolicy : Option String
deriving DecidableEq, Repr

/-- The compiled CloudFormation template: resource identifier to resource, in
iteration order. -/
abbrev Template := List (String × Resource)

/-- The resource-type discriminator of a managed log group. -/
def logGroupType : String := "AWS::Logs::LogGroup"

/-- The identifiers of the template, in order. -/
def keys (tpl : Template) : List String :=
  tpl.map Prod.fst

/-- The candidate collection loop of addCloudwatchPolicy: every resource whose
Type is AWS::Logs::LogGroup, as (key, resource) pairs in template order. -/
def collectLogGroups (tpl : Template) : List (String × Resource) :=
  tpl.filter (fun p => p.2.Type' == logGroupType)

/-- One forEach step building the logGroupLookup object:
lookup[group.Properties.LogGroupName] = key overwrites any earlier binding of
the same name. -/
def lookupStep (name : String) (acc : Option String) (p : String × Resource) : Option String :=
  if p.2.Properties.LogGroupName == name then some p.1 else acc

/-- The logGroupLookup object of removeDuplicateLogGroups, read at a name:
forEach writes lookup[group.Properties.LogGroupName] = key, so a later
candidate with the same name overwrites an earlier one.  The final lookup
maps a name to the key of the last candidate declaring it. -/
def logGroupLookup (logGroups : List (String × Resource)) (name : String) : Option String :=
  logGroups.foldl (lookupStep name) none

/-- The duplicateKeys set of removeDuplicateLogGroups: for every externally
reported name present in the lookup, the looked-up key.  Modelled as a list
whose membership is the set membership used by the purge. -/
def duplicateKeys (logGroups : List (String × Resource)) (existingLogs : List String) :
    List String :=
  existingLogs.filterMap (fun n => logGroupLookup logGroups n)

/-- The DependsOn cleanup applied to one surviving resource:
res.DependsOn = res.DependsOn.filter(d => !duplicates.has(d)), an absent
sequence left absent. -/
def purgeEntry (dups : List String) (p : String × Resource) : String × Resource :=
  (p.1,
    { p.2 with DependsOn := p.2.DependsOn.map (fun l => l.filter (fun d => !(dups.contains d))) })

/-- The purge loop of removeDuplicateLogGroups: delete every resource whose
key is a duplicate; on every remaining resource carrying a DependsOn
sequence, filter out entries naming a duplicate. -/
def purgeDuplicates (dups : List String) (tpl : Template) : Template :=
  (tpl.filter (fun p => !(dups.contains p.1))).map (purgeEntry dups)

/-- The error classification of the describeStacks catch handler:
statusCode 400, a providerError present, and its message containing the
substring "does not exist" (a string s contains a nonempty substring exactly
when splitting on it yields more than one piece). -/
def isNotFound (e : QueryError) : Bool :=
  e.statusCode == 400 &&
    (match e.providerError with
     | some pe => (pe.message.splitOn "does not exist").length != 1
     | none => false)

/-- The final then-handler of addCloudwatchPolicy: every collected log group
still present gets DeletionPolicy Retain when retainLogs is true, Delete
otherwise.  (The JavaScript writes through references captured before the
purge; writes to purged resources are unobservable, and every remaining
log-group-typed resource was captured, so this map is its observable
effect.) -/
def applyPolicyEntry (retainLogs : Bool) (p : String × Resource) : String × Resource :=
  if p.2.Type' == logGroupType then
    (p.1, { p.2 with DeletionPolicy := some (if retainLogs then "Retain" else "Delete") })
  else p

/-- The policy-assignment pass over the whole remaining template. -/
def applyPolicy (retainLogs : Bool) (tpl : Template) : Template :=
  tpl.map (applyPolicyEntry retainLogs)

/-- An external request issued by the plugin, in issue order. -/
inductive Query where
  | stackDescribe (stackName : String)
  | inventoryList (namePrefix : String)
deriving DecidableEq, Repr

/-- An error the promise chain can reject with. -/
inductive RErr where
  | unsupportedProvider (msg : String)
  | stackQueryError (e : QueryError)
deriving DecidableEq, Repr

/-- The outcome of the returned promise. -/
inductive RResult where
  | ok
  | err (e : RErr)
deriving DecidableEq, Repr

/-- The outcome of one invocation: the promise result, the template after the
in-place mutations, and the trace of external requests. -/
structure Outcome where
  result : RResult
  template : Template
  trace : List Query
deriving DecidableEq, Repr

/-- The conditional deduplication step: removeDuplicateLogGroups runs only
when retainLogs is truthy. -/
def dedupStep (retainLogs : Bool) (existingLogs : List String) (tpl : Template) : Template :=
  if retainLogs then
    purgeDuplicates (duplicateKeys (collectLogGroups tpl) existingLogs) tpl
  else tpl

/-- The template at the end of a successful chain: conditional deduplication,
then policy application. -/
def reconcileTemplate (retainLogs : Bool) (existingLogs : List String) (tpl : Template) :
    Template :=
  applyPolicy retainLogs (dedupStep retainLogs existingLogs tpl)

/-- The requests a successful chain issues: describeStacks always, then
describeLogGroups with the /aws/lambda/ stack prefix only when retainLogs. -/
def reconcileTrace (retainLogs : Bool) (stackName : String) : List Query :=
  if retainLogs then
    [Query.stackDescribe stackName, Query.inventoryList ("/aws/lambda/" ++ stackName)]
  else
    [Query.stackDescribe stackName]

/-- addCloudwatchPolicy of src/plugin.js.  providerName is
sls.service.provider.name; stackResp is none when describeStacks resolves and
some e when it rejects with e; existingLogs are the names describeLogGroups
reports; stackName is provider.naming.getStackName(); tpl is the compiled
template.  Mirrors the promise chain: provider gate, stack existence probe
with not-found classification, conditional deduplication, policy
application. -/
def addCloudwatchPolicy (providerName : String) (retainLogs : Bool)
    (stackResp : Option QueryError) (existingLogs : List String)
    (stackName : String) (tpl : Template) : Outcome :=
  if providerName != "aws" then
    { result := RResult.err (RErr.unsupportedProvider "Cannot add Cloudwatch Policy to non-aws provider"),
      template := tpl, trace := [] }
  else
    match stackResp with
    | some e =>
      if isNotFound e then
        { result := RResult.ok,
          template := reconcileTemplate retainLogs existingLogs tpl,
          trace := reconcileTrace retainLogs stackName }
      else
        { result := RResult.err (RErr.stackQueryError e),
          template := tpl, trace := [Query.stackDescribe stackName] }
    | none =>
      { result := RResult.ok,
        template := reconcileTemplate retainLogs existingLogs tpl,
        trace := reconcileTrace retainLogs stackName }

/-- No dangling references: every DependsOn entry of every resource names a
key of the template. -/
def noDangling (tpl : Template) : Bool :=
  tpl.all (fun p => (p.2.DependsOn.getD []).all (fun d => (keys tpl).contains d))

/-- DependsOn shrinkage: absent stays absent, a present sequence becomes a
subsequence (entries only removed, relative order preserved). -/
def depsShrink : Option (List String) → Option (List String) → Prop
  | none, none => True
  | some l', some l => l'.Sublist l
  | _, _ => False

/-! ### Helper lemmas about the embedded operations -/

theorem applyPolicyEntry_fst (b : Bool) (p : String × Resource) :
    (applyPolicyEntry b p).1 = p.1 := by
  unfold applyPolicyEntry; split <;> rfl

theorem applyPolicyEntry_Type (b : Bool) (p : String × Resource) :
    (applyPolicyEntry b p).2.Type' = p.2.Type' := by
  unfold applyPolicyEntry; split <;> rfl

theorem applyPolicyEntry_Properties (b : Bool) (p : String × Resource) :
    (applyPolicyEntry b p).2.Properties = p.2.Properties := by
  unfold applyPolicyEntry; split <;> rfl

theorem applyPolicyEntry_DependsOn (b : Bool) (p : String × Resource) :
    (applyPolicyEntry b p).2.DependsOn = p.2.DependsOn := by
  unfold applyPolicyEntry; split <;> rfl

theorem applyPolicyEntry_policy_of_type (b : Bool) (p : String × Resource)
    (h : p.2.Type' = logGroupType) :
    (applyPolicyEntry b p).2.DeletionPolicy = some (if b then "Retain" else "Delete") := by
  unfold applyPolicyEntry
  rw [if_pos (by simp [h])]

theorem applyPolicyEntry_policy_of_ne (b : Bool) (p : String × Resource)
    (h : ¬ p.2.Type' = logGroupType) :
    (applyPolicyEntry b p).2.DeletionPolicy = p.2.DeletionPolicy := by
  unfold applyPolicyEntry
  rw [if_neg (by simp [h])]

theorem applyPolicyEntry_idem (b : Bool) (p : String × Resource) :
    applyPolicyEntry b (applyPolicyEntry b p) = applyPolicyEntry b p := by
  by_cases h : (p.2.Type' == logGroupType) = true
  · simp [applyPolicyEntry, h]
  · simp [applyPolicyEntry, h]

theorem purgeEntry_fst (dups : List String) (p : String × Resource) :
    (purgeEntry dups p).1 = p.1 := rfl

theorem purgeEntry_Type (dups : List String) (p : String × Resource) :
    (purgeEntry dups p).2.Type' = p.2.Type' := rfl

theorem purgeEntry_Properties (dups : List String) (p : String × Resource) :
    (purgeEntry dups p).2.Properties = p.2.Properties := rfl

theorem purgeEntry_policy (dups : List String) (p : String × Resource) :
    (purgeEntry dups p).2.DeletionPolicy = p.2.DeletionPolicy := rfl

theorem purgeEntry_DependsOn (dups : List String) (p : String × Resource) :
    (purgeEntry dups p).2.DependsOn
      = p.2.DependsOn.map (fun l => l.filter (fun d => !(dups.contains d))) := rfl

theorem mem_keys {t : Template} {k : String} : k ∈ keys t ↔ ∃ r, (k, r) ∈ t := by
  unfold keys
  rw [List.mem_map]
  constructor
  · rintro ⟨⟨a, r⟩, hmem, rfl⟩
    exact ⟨r, hmem⟩
  · rintro ⟨r, h⟩
    exact ⟨(k, r), h, rfl⟩

theorem keys_applyPolicy (b : Bool) (t : Template) : keys (applyPolicy b t) = keys t := by
  unfold keys applyPolicy
  rw [List.map_map]
  exact List.map_congr_left fun p _ => applyPolicyEntry_fst b p

theorem mem_applyPolicy {b : Bool} {t : Template} {q : String × Resource} :
    q ∈ applyPolicy b t ↔ ∃ p ∈ t, applyPolicyEntry b p = q := by
  unfold applyPolicy
  exact List.mem_map

theorem mem_purgeDuplicates {dups : List String} {t : Template} {q : String × Resource} :
    q ∈ purgeDuplicates dups t
      ↔ ∃ p ∈ t, (dups.contains p.1) = false ∧ purgeEntry dups p = q := by
  unfold purgeDuplicates
  rw [List.mem_map]
  constructor
  · rintro ⟨p, hp, rfl⟩
    rw [List.mem_filter] at hp
    exact ⟨p, hp.1, by simpa using hp.2, rfl⟩
  · rintro ⟨p, hp, hc, rfl⟩
    refine ⟨p, List.mem_filter.mpr ⟨hp, ?_⟩, rfl⟩
    rw [hc]
    rfl

theorem mem_keys_purge {dups : List String} {t : Template} {k : String} :
    k ∈ keys (purgeDuplicates dups t) ↔ (∃ r, (k, r) ∈ t) ∧ (dups.contains k) = false := by
  rw [mem_keys]
  constructor
  · rintro ⟨r', hr'⟩
    rcases mem_purgeDuplicates.mp hr' with ⟨p, hp, hc, heq⟩
    have hk : p.1 = k := by
      have := congrArg Prod.fst heq
      simpa [purgeEntry_fst] using this
    subst hk
    exact ⟨⟨p.2, hp⟩, hc⟩
  · rintro ⟨⟨r, hr⟩, hc⟩
    exact ⟨(purgeEntry dups (k, r)).2,
      mem_purgeDuplicates.mpr ⟨(k, r), hr, hc, rfl⟩⟩

theorem contains_eq_false_iff {l : List String} {a : String} :
    (l.contains a) = false ↔ a ∉ l := by
  constructor
  · intro h ha
    have ht : l.contains a = true := List.elem_iff.mpr ha
    rw [h] at ht
    exact Bool.false_ne_true ht
  · intro h
    cases hb : l.contains a with
    | false => rfl
    | true => exact absurd (List.elem_iff.mp hb) h

theorem foldl_lookupStep_no_match (n : String) (l : List (String × Resource))
    (h : ∀ p ∈ l, (p.2.Properties.LogGroupName == n) = false) :
    ∀ acc, l.foldl (lookupStep n) acc = acc := by
  induction l with
  | nil => intro acc; rfl
  | cons p l ih =>
    intro acc
    rw [List.foldl_cons]
    have hp : lookupStep n acc p = acc := by
      unfold lookupStep
      rw [if_neg (by simp [h p (List.mem_cons_self p l)])]
    rw [hp]
    exact ih (fun q hq => h q (List.mem_cons_of_mem p hq)) acc

theorem foldl_lookupStep_some (n : String) (l : List (String × Resource)) :
    ∀ acc k, l.foldl (lookupStep n) acc = some k →
      (∃ r, (k, r) ∈ l ∧ r.Properties.LogGroupName = n) ∨ acc = some k := by
  induction l with
  | nil => intro acc k h; exact Or.inr h
  | cons p l ih =>
    intro acc k h
    rw [List.foldl_cons] at h
    rcases ih (lookupStep n acc p) k h with hl | hacc
    · rcases hl with ⟨r, hr, hn⟩
      exact Or.inl ⟨r, List.mem_cons_of_mem p hr, hn⟩
    · unfold lookupStep at hacc
      by_cases hm : (p.2.Properties.LogGroupName == n) = true
      · rw [if_pos hm] at hacc
        refine Or.inl ⟨p.2, ?_, beq_iff_eq.mp hm⟩
        have : p = (k, p.2) := by
          cases p with
          | mk a b => simpa using (Option.some.injEq _ _ ▸ hacc).symm ▸ rfl
        rw [← this]
        exact List.mem_cons_self p l
      · rw [if_neg hm] at hacc
        exact Or.inr hacc

theorem logGroupLookup_some {lgs : List (String × Resource)} {n k : String}
    (h : logGroupLookup lgs n = some k) :
    ∃ r, (k, r) ∈ lgs ∧ r.Properties.LogGroupName = n := by
  rcases foldl_lookupStep_some n lgs none k h with hl | hacc
  · exact hl
  · exact absurd hacc (by simp)

theorem logGroupLookup_last (l1 l2 : List (String × Resource)) (k : String) (g : Resource)
    (n : String) (hg : g.Properties.LogGroupName = n)
    (h2 : ∀ p ∈ l2, (p.2.Properties.LogGroupName == n) = false) :
    logGroupLookup (l1 ++ (k, g) :: l2) n = some k := by
  unfold logGroupLookup
  rw [List.foldl_append, List.foldl_cons]
  have hstep : lookupStep n (l1.foldl (lookupStep n) none) (k, g) = some k := by
    unfold lookupStep
    rw [if_pos (by simp [hg])]
  rw [hstep]
  exact foldl_lookupStep_no_match n l2 h2 (some k)

theorem mem_duplicateKeys {lgs : List (String × Resource)} {inv : List String} {k : String} :
    k ∈ duplicateKeys lgs inv ↔ ∃ n ∈ inv, logGroupLookup lgs n = some k := by
  unfold duplicateKeys
  exact List.mem_filterMap

theorem mem_collectLogGroups {t : Template} {p : String × Resource} :
    p ∈ collectLogGroups t ↔ p ∈ t ∧ p.2.Type' = logGroupType := by
  unfold collectLogGroups
  rw [List.mem_filter]
  simp

theorem duplicateKeys_eq_nil {lgs : List (String × Resource)} {inv : List String}
    (h : ∀ p ∈ lgs, p.2.Properties.LogGroupName ∉ inv) :
    duplicateKeys lgs inv = [] := by
  unfold duplicateKeys
  rw [List.filterMap_eq_nil_iff]
  intro n hn
  cases hl : logGroupLookup lgs n with
  | none => rfl
  | some k =>
    rcases logGroupLookup_some hl with ⟨r, hr, hname⟩
    exact absurd (hname ▸ hn) (h (k, r) hr)

theorem purgeEntry_nil (p : String × Resource) : purgeEntry [] p = p := by
  cases p with
  | mk k r =>
    cases r with
    | mk t pr dep pol =>
      unfold purgeEntry
      cases dep with
      | none => rfl
      | some l =>
        have hf : List.filter (fun d => !(List.contains [] d)) l = l :=
          List.filter_eq_self.mpr (fun a _ => rfl)
        simp [hf]

theorem purgeDuplicates_nil (t : Template) : purgeDuplicates [] t = t := by
  unfold purgeDuplicates
  rw [List.filter_eq_self.mpr (fun p _ => by simp [List.contains])]
  rw [List.map_congr_left (fun p _ => purgeEntry_nil p)]
  exact List.map_id t

theorem applyPolicy_idem (b : Bool) (t : Template) :
    applyPolicy b (applyPolicy b t) = applyPolicy b t := by
  unfold applyPolicy
  rw [List.map_map]
  exact List.map_congr_left fun p _ => applyPolicyEntry_idem b p

theorem key_unique {t : Template} {k : String} {r1 r2 : Resource}
    (hnd : (keys t).Nodup) (h1 : (k, r1) ∈ t) (h2 : (k, r2) ∈ t) : r1 = r2 := by
  induction t with
  | nil => cases h1
  | cons p t ih =>
    rw [keys, List.map_cons, List.nodup_cons] at hnd
    rcases List.mem_cons.mp h1 with he1 | ht1
    · rcases List.mem_cons.mp h2 with he2 | ht2
      · have h12 : (k, r1) = (k, r2) := he1.trans he2.symm
        exact congrArg Prod.snd h12
      · have hp1 : p.1 = k := by rw [← he1]
        have hk : k ∈ keys t := mem_keys.mpr ⟨r2, ht2⟩
        rw [← hp1] at hk
        exact absurd hk hnd.1
    · rcases List.mem_cons.mp h2 with he2 | ht2
      · have hp1 : p.1 = k := by rw [← he2]
        have hk : k ∈ keys t := mem_keys.mpr ⟨r1, ht1⟩
        rw [← hp1] at hk
        exact absurd hk hnd.1
      · exact ih hnd.2 ht1 ht2

theorem depsShrink_refl (o : Option (List String)) : depsShrink o o := by
  cases o with
  | none => trivial
  | some l => exact List.Sublist.refl l

theorem depsShrink_filter (o : Option (List String)) (pred : String → Bool) :
    depsShrink (o.map (fun l => l.filter pred)) o := by
  cases o with
  | none => trivial
  | some l => exact List.filter_sublist l

theorem collectLogGroups_append (s t : Template) :
    collectLogGroups (s ++ t) = collectLogGroups s ++ collectLogGroups t := by
  unfold collectLogGroups
  exact List.filter_append _ _

theorem collectLogGroups_cons_of_type (p : String × Resource) (t : Template)
    (h : p.2.Type' = logGroupType) :
    collectLogGroups (p :: t) = p :: collectLogGroups t := by
  unfold collectLogGroups
  rw [List.filter_cons_of_pos (by simp [h])]

/-! ### Branch-shape lemmas for addCloudwatchPolicy -/

theorem addCloudwatchPolicy_not_aws (pn : String) (retain : Bool)
    (stackResp : Option QueryError) (inv : List String) (sn : String) (tpl : Template)
    (h : ¬ pn = "aws") :
    addCloudwatchPolicy pn retain stackResp inv sn tpl =
      { result := RResult.err
          (RErr.unsupportedProvider "Cannot add Cloudwatch Policy to non-aws provider"),
        template := tpl, trace := [] } := by
  unfold addCloudwatchPolicy
  rw [if_pos (by simpa using h)]

theorem addCloudwatchPolicy_aws_none (retain : Bool) (inv : List String) (sn : String)
    (tpl : Template) :
    addCloudwatchPolicy "aws" retain none inv sn tpl =
      { result := RResult.ok, template := reconcileTemplate retain inv tpl,
        trace := reconcileTrace retain sn } := by
  unfold addCloudwatchPolicy
  rw [if_neg (by decide)]

theorem addCloudwatchPolicy_aws_notFound (retain : Bool) (inv : List String) (sn : String)
    (tpl : Template) (e : QueryError) (h : isNotFound e = true) :
    addCloudwatchPolicy "aws" retain (some e) inv sn tpl =
      { result := RResult.ok, template := reconcileTemplate retain inv tpl,
        trace := reconcileTrace retain sn } := by
  unfold addCloudwatchPolicy
  rw [if_neg (by decide)]
  change (if isNotFound e = true then _ else _) = _
  rw [if_pos h]

theorem addCloudwatchPolicy_aws_fail (retain : Bool) (inv : List String) (sn : String)
    (tpl : Template) (e : QueryError) (h : isNotFound e = false) :
    addCloudwatchPolicy "aws" retain (some e) inv sn tpl =
      { result := RResult.err (RErr.stackQueryError e),
        template := tpl, trace := [Query.stackDescribe sn] } := by
  unfold addCloudwatchPolicy
  rw [if_neg (by decide)]
  change (if isNotFound e = true then _ else _) = _
  rw [if_neg (by simp [h])]

theorem template_of_ok (pn : String) (retain : Bool) (stackResp : Option QueryError)
    (inv : List String) (sn : String) (tpl : Template)
    (hok : (addCloudwatchPolicy pn retain stackResp inv sn tpl).result = RResult.ok) :
    (addCloudwatchPolicy pn retain stackResp inv sn tpl).template
      = reconcileTemplate retain inv tpl := by
  by_cases hp : pn = "aws"
  · subst hp
    cases stackResp with
    | none => rw [addCloudwatchPolicy_aws_none]
    | some e =>
      cases hnf : isNotFound e with
      | true => rw [addCloudwatchPolicy_aws_notFound _ _ _ _ _ hnf]
      | false =>
        rw [addCloudwatchPolicy_aws_fail _ _ _ _ _ hnf] at hok
        exact absurd hok (by simp)
  · rw [addCloudwatchPolicy_not_aws _ _ _ _ _ _ hp] at hok
    exact absurd hok (by simp)

/-! ### Fixtures mirroring the template of test/plugin.spec.js -/

/-- A declared log-group resource with the given name. -/
def lgRes (n : String) : Resource :=
  { Type' := logGroupType, Properties := { LogGroupName := n, rest := [] },
    DependsOn := none, DeletionPolicy := none }

/-- A function resource depending on the given identifiers. -/
def fnRes (deps : List String) : Resource :=
  { Type' := "AWS::Lambda::Function", Properties := { LogGroupName := "", rest := [] },
    DependsOn := some deps, DeletionPolicy := none }

/-- The test-suite template: two log groups, two functions, each function
depending on its log group and on an execution role declared elsewhere. -/
def demoTemplate : Template :=
  [("FirstLogGroup", lgRes "/aws/lambda/first-log-group"),
   ("SecondLogGroup", lgRes "/aws/lambda/second-log-group"),
   ("FirstFunction", fnRes ["FirstLogGroup", "LambdaExecutionRole"]),
   ("SecondFunction", fnRes ["SecondLogGroup", "LambdaExecutionRole"])]

/-- The SecondLogGroup entry as the Scenario-B run leaves it: declared name
kept, DeletionPolicy set to Retain. -/
def retainedSecondLG : String × Resource :=
  ("SecondLogGroup",
    { Type' := logGroupType,
      Properties := { LogGroupName := "/aws/lambda/second-log-group", rest := [] },
      DependsOn := none, DeletionPolicy := some "Retain" })

/-- Two log-group resources declaring the same log-group name. -/
def dupNameTemplate : Template :=
  [("FirstLogGroup", lgRes "/shared/name"),
   ("SecondLogGroup", lgRes "/shared/name")]

/-- The trace predicate picking out StackQuery probes. -/
def isStackQuery : Query → Bool
  | Query.stackDescribe _ => true
  | Query.inventoryList _ => false

/-- The projection of a template entry onto everything reconcile may never
change except by entry removal: identifier, type, properties, DependsOn. -/
def frameProj (p : String × Resource) : String × String × Properties × Option (List String) :=
  (p.1, p.2.Type', p.2.Properties, p.2.DependsOn)

theorem frameProj_applyPolicyEntry (b : Bool) (p : String × Resource) :
    frameProj (applyPolicyEntry b p) = frameProj p := by
  unfold frameProj
  rw [applyPolicyEntry_fst, applyPolicyEntry_Type, applyPolicyEntry_Properties,
    applyPolicyEntry_DependsOn]

/-! ### The claims -/

/-- C3: after a successful reconcile, every remaining log-group resource has
DeletionPolicy equal to Retain exactly when retainLogs is true, and equal to
Delete when retainLogs is false. -/
theorem C3_policy_iff_retainLogs (providerName : String) (retainLogs : Bool)
    (stackResp : Option QueryError) (existingLogs : List String) (stackName : String)
    (tpl : Template)
    (hok : (addCloudwatchPolicy providerName retainLogs stackResp existingLogs
        stackName tpl).result = RResult.ok) :
    ∀ p ∈ (addCloudwatchPolicy providerName retainLogs stackResp existingLogs
        stackName tpl).template,
      p.2.Type' = logGroupType →
        (p.2.DeletionPolicy = some "Retain" ↔ retainLogs = true) ∧
        (retainLogs = false → p.2.DeletionPolicy = some "Delete") := by
  rw [template_of_ok _ _ _ _ _ _ hok]
  intro p hp htype
  rcases mem_applyPolicy.mp hp with ⟨q, hq, hpq⟩
  have hqt : q.2.Type' = logGroupType := by
    rw [← applyPolicyEntry_Type retainLogs q, hpq]
    exact htype
  have hpol : p.2.DeletionPolicy = some (if retainLogs then "Retain" else "Delete") := by
    rw [← hpq]
    exact applyPolicyEntry_policy_of_type _ _ hqt
  cases retainLogs <;> simp [hpol]

/-- C3 witness: in the Scenario-B run the surviving log group carries
DeletionPolicy Retain. -/
theorem C3_policy_iff_retainLogs_witness :
    (retainedSecondLG.2.DeletionPolicy = some "Retain" ↔ true = true) ∧
    (true = false → retainedSecondLG.2.DeletionPolicy = some "Delete") :=
  C3_policy_iff_retainLogs "aws" true none ["/aws/lambda/first-log-group"]
    "mock-test-stack" demoTemplate (by decide) retainedSecondLG (by decide) (by decide)

/-- C4: with retainLogs false, reconcile removes no resource and changes no
DependsOn sequence (every entry keeps identifier, type, properties and
DependsOn, in order), whatever the inventory holds, and the InventoryQuery
request never appears in the trace. -/
theorem C4_retain_false_no_removal (providerName : String) (stackResp : Option QueryError)
    (existingLogs : List String) (stackName : String) (tpl : Template) :
    ((addCloudwatchPolicy providerName false stackResp existingLogs stackName
        tpl).template.map frameProj = tpl.map frameProj) ∧
    (∀ q ∈ (addCloudwatchPolicy providerName false stackResp existingLogs stackName
        tpl).trace, ∀ nm, ¬ q = Query.inventoryList nm) := by
  have hbody : (reconcileTemplate false existingLogs tpl).map frameProj
      = tpl.map frameProj := by
    unfold reconcileTemplate dedupStep
    rw [if_neg (by simp)]
    unfold applyPolicy
    rw [List.map_map]
    exact List.map_congr_left fun p _ => frameProj_applyPolicyEntry false p
  have htrace : ∀ q ∈ reconcileTrace false stackName, ∀ nm, ¬ q = Query.inventoryList nm := by
    unfold reconcileTrace
    rw [if_neg (by simp)]
    intro q hq nm
    rw [List.mem_singleton.mp hq]
    simp
  by_cases hp : providerName = "aws"
  · subst hp
    cases stackResp with
    | none =>
      rw [addCloudwatchPolicy_aws_none]
      exact ⟨hbody, htrace⟩
    | some e =>
      cases hnf : isNotFound e with
      | true =>
        rw [addCloudwatchPolicy_aws_notFound _ _ _ _ _ hnf]
        exact ⟨hbody, htrace⟩
      | false =>
        rw [addCloudwatchPolicy_aws_fail _ _ _ _ _ hnf]
        refine ⟨rfl, ?_⟩
        intro q hq nm
        rw [List.mem_singleton.mp hq]
        simp
  · rw [addCloudwatchPolicy_not_aws _ _ _ _ _ _ hp]
    refine ⟨rfl, ?_⟩
    intro q hq nm
    cases hq

/-- C5: on the retainLogs-true success path the final template is the policy
pass applied to the fully purged template (reference cleanup completes before
any DeletionPolicy is written); the purge removes every identifier marked
duplicate from the mapping; and every surviving resource of any type keeps
its key, with its DependsOn sequence filtered of duplicate identifiers as a
subsequence (relative order preserved). -/
theorem C5_purge_semantics (existingLogs : List String) (stackName : String)
    (tpl : Template) :
    ((addCloudwatchPolicy "aws" true none existingLogs stackName tpl).template
      = applyPolicy true
          (purgeDuplicates (duplicateKeys (collectLogGroups tpl) existingLogs) tpl))
    ∧ (∀ (dups : List String) (t : Template) (k : String),
        k ∈ dups → k ∉ keys (purgeDuplicates dups t))
    ∧ (∀ (dups : List String) (t : Template) (k : String) (r' : Resource),
        (k, r') ∈ purgeDuplicates dups t →
        ∃ r, (k, r) ∈ t
          ∧ r'.DependsOn = r.DependsOn.map (fun l => l.filter (fun d => !(dups.contains d)))
          ∧ depsShrink r'.DependsOn r.DependsOn) := by
  refine ⟨?_, ?_, ?_⟩
  · rw [addCloudwatchPolicy_aws_none]
    unfold reconcileTemplate dedupStep
    rw [if_pos rfl]
  · intro dups t k hk hmem
    rcases mem_keys_purge.mp hmem with ⟨_, hc⟩
    exact (contains_eq_false_iff.mp hc) hk
  · intro dups t k r' hmem
    rcases mem_purgeDuplicates.mp hmem with ⟨p, hp, hc, hpe⟩
    have hk : p.1 = k := by
      have := congrArg Prod.fst hpe
      rw [purgeEntry_fst] at this
      exact this
    have hr : r' = (purgeEntry dups p).2 := (congrArg Prod.snd hpe).symm
    refine ⟨p.2, ?_, ?_, ?_⟩
    · rw [← hk]; exact hp
    · rw [hr, purgeEntry_DependsOn]
    · rw [hr, purgeEntry_DependsOn]
      exact depsShrink_filter p.2.DependsOn _

/-- C6: a describeStacks failure classified as not-found (status 400 and a
message containing "does not exist") is treated as a first deployment and the
chain completes; any other failure rejects the chain with that error and
leaves the template exactly as supplied. -/
theorem C6_stackQuery_classification (retainLogs : Bool) (existingLogs : List String)
    (stackName : String) (tpl : Template) (e : QueryError) :
    (isNotFound e = true →
      (addCloudwatchPolicy "aws" retainLogs (some e) existingLogs stackName
        tpl).result = RResult.ok) ∧
    (isNotFound e = false →
      (addCloudwatchPolicy "aws" retainLogs (some e) existingLogs stackName
          tpl).result = RResult.err (RErr.stackQueryError e) ∧
      (addCloudwatchPolicy "aws" retainLogs (some e) existingLogs stackName
          tpl).template = tpl) := by
  constructor
  · intro h
    rw [addCloudwatchPolicy_aws_notFound _ _ _ _ _ h]
  · intro h
    rw [addCloudwatchPolicy_aws_fail _ _ _ _ _ h]
    exact ⟨rfl, rfl⟩

/-- C7: for a provider other than aws the operation fails immediately with
the unsupported-provider rejection, the template is untouched and no external
request is issued. -/
theorem C7_unsupported_provider (providerName : String) (retainLogs : Bool)
    (stackResp : Option QueryError) (existingLogs : List String) (stackName : String)
    (tpl : Template) (h : ¬ providerName = "aws") :
    ((addCloudwatchPolicy providerName retainLogs stackResp existingLogs stackName
        tpl).result = RResult.err
          (RErr.unsupportedProvider "Cannot add Cloudwatch Policy to non-aws provider")) ∧
    ((addCloudwatchPolicy providerName retainLogs stackResp existingLogs stackName
        tpl).template = tpl) ∧
    ((addCloudwatchPolicy providerName retainLogs stackResp existingLogs stackName
        tpl).trace = []) := by
  rw [addCloudwatchPolicy_not_aws _ _ _ _ _ _ h]
  exact ⟨rfl, rfl, rfl⟩

/-- C7 witness: a run against an azure provider rejects without touching the
template or issuing a request. -/
theorem C7_unsupported_provider_witness :
    ((addCloudwatchPolicy "azure" true none [] "mock-test-stack"
        demoTemplate).result = RResult.err
          (RErr.unsupportedProvider "Cannot add Cloudwatch Policy to non-aws provider")) ∧
    ((addCloudwatchPolicy "azure" true none [] "mock-test-stack"
        demoTemplate).template = demoTemplate) ∧
    ((addCloudwatchPolicy "azure" true none [] "mock-test-stack"
        demoTemplate).trace = []) :=
  C7_unsupported_provider "azure" true none [] "mock-test-stack" demoTemplate (by decide)

/-- C9: on the aws provider the trace always holds exactly one describeStacks
probe, first, and the describeLogGroups request, when present at all, comes
strictly after it; the trace is generated by a sequential promise chain, so
the two requests are never in flight together.  This holds for every
retainLogs value and every stack-probe outcome. -/
theorem C9_probe_once_before_inventory (retainLogs : Bool) (stackResp : Option QueryError)
    (existingLogs : List String) (stackName : String) (tpl : Template) :
    ((addCloudwatchPolicy "aws" retainLogs stackResp existingLogs stackName
        tpl).trace.filter isStackQuery = [Query.stackDescribe stackName]) ∧
    ((addCloudwatchPolicy "aws" retainLogs stackResp existingLogs stackName
        tpl).trace = [Query.stackDescribe stackName] ∨
     (addCloudwatchPolicy "aws" retainLogs stackResp existingLogs stackName
        tpl).trace = [Query.stackDescribe stackName,
          Query.inventoryList ("/aws/lambda/" ++ stackName)]) := by
  have htr : ∀ b : Bool,
      (reconcileTrace b stackName).filter isStackQuery = [Query.stackDescribe stackName] ∧
      (reconcileTrace b stackName = [Query.stackDescribe stackName] ∨
       reconcileTrace b stackName = [Query.stackDescribe stackName,
          Query.inventoryList ("/aws/lambda/" ++ stackName)]) := by
    intro b
    cases b with
    | false =>
      constructor
      · simp [reconcileTrace, List.filter, isStackQuery]
      · left; simp [reconcileTrace]
    | true =>
      constructor
      · simp [reconcileTrace, List.filter, isStackQuery]
      · right; simp [reconcileTrace]
  cases stackResp with
  | none =>
    rw [addCloudwatchPolicy_aws_none]
    exact htr retainLogs
  | some e =>
    cases hnf : isNotFound e with
    | true =>
      rw [addCloudwatchPolicy_aws_notFound _ _ _ _ _ hnf]
      exact htr retainLogs
    | false =>
      rw [addCloudwatchPolicy_aws_fail _ _ _ _ _ hnf]
      constructor
      · simp [List.filter, isStackQuery]
      · left; rfl

theorem beq_eq_false_of_ne {x y : String} (h : ¬ x = y) : (x == y) = false := by
  cases hbe : x == y with
  | true => exact absurd (beq_iff_eq.mp hbe) h
  | false => rfl

/-- C1 counterexample: the Scenario-B run succeeds, yet the resulting
template still holds a DependsOn entry naming LambdaExecutionRole, an
identifier that is not (and never was) declared, so the claim fails for
entries that were dangling before reconciliation ran. -/
theorem C1_dangling_counterexample :
    (addCloudwatchPolicy "aws" true none ["/aws/lambda/first-log-group"]
        "mock-test-stack" demoTemplate).result = RResult.ok ∧
    noDangling (addCloudwatchPolicy "aws" true none ["/aws/lambda/first-log-group"]
        "mock-test-stack" demoTemplate).template = false := by
  decide

/-- C1 (amended): after a successful reconcile no NEW dangling reference
exists: every DependsOn entry of every remaining resource that named an
identifier present in the supplied template still names an identifier present
in the resulting template.  Entries already dangling beforehand may remain
dangling. -/
theorem C1_no_new_dangling (providerName : String) (retainLogs : Bool)
    (stackResp : Option QueryError) (existingLogs : List String) (stackName : String)
    (tpl : Template)
    (hok : (addCloudwatchPolicy providerName retainLogs stackResp existingLogs
        stackName tpl).result = RResult.ok) :
    ∀ p ∈ (addCloudwatchPolicy providerName retainLogs stackResp existingLogs
        stackName tpl).template,
      ∀ d ∈ p.2.DependsOn.getD [], d ∈ keys tpl →
        d ∈ keys (addCloudwatchPolicy providerName retainLogs stackResp existingLogs
          stackName tpl).template := by
  rw [template_of_ok _ _ _ _ _ _ hok]
  unfold reconcileTemplate dedupStep
  intro p hp d hd hdk
  rw [keys_applyPolicy]
  rcases mem_applyPolicy.mp hp with ⟨q, hq, hpq⟩
  have hdep : p.2.DependsOn = q.2.DependsOn := by
    rw [← hpq, applyPolicyEntry_DependsOn]
  rw [hdep] at hd
  cases retainLogs with
  | false =>
    rw [if_neg (by simp)]
    exact hdk
  | true =>
    rw [if_pos rfl]
    rw [if_pos rfl] at hq
    rcases mem_purgeDuplicates.mp hq with ⟨p0, hp0, hc0, hpe⟩
    have hq2 : q.2 = (purgeEntry (duplicateKeys (collectLogGroups tpl) existingLogs) p0).2 :=
      (congrArg Prod.snd hpe).symm
    rw [hq2, purgeEntry_DependsOn] at hd
    have hdf : ((duplicateKeys (collectLogGroups tpl) existingLogs).contains d) = false := by
      cases hdo : p0.2.DependsOn with
      | none =>
        rw [hdo] at hd
        simp at hd
      | some l =>
        rw [hdo] at hd
        have hmf : d ∈ l.filter
            (fun x => !((duplicateKeys (collectLogGroups tpl) existingLogs).contains x)) := hd
        have := (List.mem_filter.mp hmf).2
        simpa using this
    rcases mem_keys.mp hdk with ⟨rd, hrd⟩
    exact mem_keys_purge.mpr ⟨⟨rd, hrd⟩, hdf⟩

/-- C1 witness: in the Scenario-B run, SecondFunction's reference to
SecondLogGroup (present beforehand) is still resolvable afterwards. -/
theorem C1_no_new_dangling_witness :
    "SecondLogGroup" ∈ keys (addCloudwatchPolicy "aws" true none
      ["/aws/lambda/first-log-group"] "mock-test-stack" demoTemplate).template :=
  C1_no_new_dangling "aws" true none ["/aws/lambda/first-log-group"] "mock-test-stack"
    demoTemplate (by decide)
    ("SecondFunction", fnRes ["SecondLogGroup", "LambdaExecutionRole"]) (by decide)
    "SecondLogGroup" (by decide) (by decide)

/-- C2 counterexample: two distinct log-group candidates declare the same
name, the inventory reports that name, retainLogs is true and the run
succeeds — yet FirstLogGroup is still in the template, so not every matching
candidate was removed. -/
theorem C2_shared_name_counterexample :
    (addCloudwatchPolicy "aws" true none ["/shared/name"] "mock-test-stack"
        dupNameTemplate).result = RResult.ok ∧
    ("FirstLogGroup", lgRes "/shared/name") ∈ dupNameTemplate ∧
    ("SecondLogGroup", lgRes "/shared/name") ∈ dupNameTemplate ∧
    (lgRes "/shared/name").Type' = logGroupType ∧
    "FirstLogGroup" ∈ keys (addCloudwatchPolicy "aws" true none ["/shared/name"]
        "mock-test-stack" dupNameTemplate).template := by
  decide

/-- C2 (amended): the lookup built by forEach maps a name to the key of the
LAST candidate declaring it, so when two candidates share a name reported by
the inventory, only the later candidate is removed and every earlier one
remains in the template. -/
theorem C2_only_last_duplicate_removed (a b c : Template) (k1 k2 n sn : String)
    (r1 r2 : Resource) (inv : List String)
    (h1t : r1.Type' = logGroupType) (h2t : r2.Type' = logGroupType)
    (h1n : r1.Properties.LogGroupName = n) (h2n : r2.Properties.LogGroupName = n)
    (hc : ∀ p ∈ c, p.2.Type' = logGroupType → ¬ p.2.Properties.LogGroupName = n)
    (hnd : (keys (a ++ (k1, r1) :: b ++ (k2, r2) :: c)).Nodup)
    (hinv : n ∈ inv) :
    k1 ∈ keys (addCloudwatchPolicy "aws" true none inv sn
        (a ++ (k1, r1) :: b ++ (k2, r2) :: c)).template ∧
    k2 ∉ keys (addCloudwatchPolicy "aws" true none inv sn
        (a ++ (k1, r1) :: b ++ (k2, r2) :: c)).template := by
  rw [addCloudwatchPolicy_aws_none]
  unfold reconcileTemplate dedupStep
  rw [if_pos rfl]
  have hcands : collectLogGroups (a ++ (k1, r1) :: b ++ (k2, r2) :: c)
      = (collectLogGroups a ++ (k1, r1) :: collectLogGroups b)
          ++ (k2, r2) :: collectLogGroups c := by
    rw [collectLogGroups_append, collectLogGroups_append,
      collectLogGroups_cons_of_type (k1, r1) b h1t,
      collectLogGroups_cons_of_type (k2, r2) c h2t]
  have hlook : logGroupLookup (collectLogGroups (a ++ (k1, r1) :: b ++ (k2, r2) :: c)) n
      = some k2 := by
    rw [hcands]
    apply logGroupLookup_last _ _ _ _ _ h2n
    intro p hp
    rcases mem_collectLogGroups.mp hp with ⟨hpc, hpt⟩
    exact beq_eq_false_of_ne (hc p hpc hpt)
  have hk2dup : k2 ∈ duplicateKeys
      (collectLogGroups (a ++ (k1, r1) :: b ++ (k2, r2) :: c)) inv :=
    mem_duplicateKeys.mpr ⟨n, hinv, hlook⟩
  have hk12 : ¬ k1 = k2 := by
    have hkeys : keys (a ++ (k1, r1) :: b ++ (k2, r2) :: c)
        = keys a ++ k1 :: (keys b ++ k2 :: keys c) := by
      simp [keys]
    rw [hkeys] at hnd
    have h1 := (List.nodup_append.mp hnd).2.1
    have h2 := (List.nodup_cons.mp h1).1
    intro he
    apply h2
    rw [he]
    exact List.mem_append_right _ (List.mem_cons_self _ _)
  rw [keys_applyPolicy]
  constructor
  · have h11 : (k1, r1) ∈ a ++ (k1, r1) :: b ++ (k2, r2) :: c := by simp
    have hk1notdup : k1 ∉ duplicateKeys
        (collectLogGroups (a ++ (k1, r1) :: b ++ (k2, r2) :: c)) inv := by
      intro hmem
      rcases mem_duplicateKeys.mp hmem with ⟨m, _, hlm⟩
      rcases logGroupLookup_some hlm with ⟨r, hr, hrn⟩
      have hrtpl : (k1, r) ∈ a ++ (k1, r1) :: b ++ (k2, r2) :: c :=
        (mem_collectLogGroups.mp hr).1
      have hrr1 : r = r1 := key_unique hnd hrtpl h11
      rw [hrr1, h1n] at hrn
      rw [← hrn] at hlm
      rw [hlook] at hlm
      have : k2 = k1 := by
        injection hlm
      exact hk12 this.symm
    exact mem_keys_purge.mpr ⟨⟨r1, h11⟩, contains_eq_false_iff.mpr hk1notdup⟩
  · intro hmem
    rcases mem_keys_purge.mp hmem with ⟨_, hc2⟩
    exact (contains_eq_false_iff.mp hc2) hk2dup

/-- C2 witness: with both candidates of dupNameTemplate matching the reported
shared name, the earlier FirstLogGroup survives and the later SecondLogGroup
is removed. -/
theorem C2_only_last_duplicate_removed_witness :
    "FirstLogGroup" ∈ keys (addCloudwatchPolicy "aws" true none ["/shared/name"]
        "mock-test-stack" dupNameTemplate).template ∧
    "SecondLogGroup" ∉ keys (addCloudwatchPolicy "aws" true none ["/shared/name"]
        "mock-test-stack" dupNameTemplate).template :=
  C2_only_last_duplicate_removed [] [] [] "FirstLogGroup" "SecondLogGroup"
    "/shared/name" "mock-test-stack" (lgRes "/shared/name") (lgRes "/shared/name")
    ["/shared/name"] (by decide) (by decide) (by decide) (by decide)
    (fun p hp => absurd hp (List.not_mem_nil p)) (by decide) (by decide)

/-- C8: running reconcile again on the template a successful run produced,
with the same retainLogs and an inventory reporting no name of any remaining
log group (in particular one now listing the removed groups), succeeds and
returns the very same template: no further removal, no DependsOn change, the
same DeletionPolicy values re-asserted. -/
theorem C8_second_run_no_change (retainLogs : Bool) (s1 : Option QueryError)
    (inv1 inv2 : List String) (sn1 sn2 : String) (tpl : Template)
    (hok1 : (addCloudwatchPolicy "aws" retainLogs s1 inv1 sn1 tpl).result = RResult.ok)
    (hfresh : ∀ p ∈ (addCloudwatchPolicy "aws" retainLogs s1 inv1 sn1 tpl).template,
        p.2.Type' = logGroupType → p.2.Properties.LogGroupName ∉ inv2) :
    (addCloudwatchPolicy "aws" retainLogs none inv2 sn2
        ((addCloudwatchPolicy "aws" retainLogs s1 inv1 sn1 tpl).template)).result
      = RResult.ok ∧
    (addCloudwatchPolicy "aws" retainLogs none inv2 sn2
        ((addCloudwatchPolicy "aws" retainLogs s1 inv1 sn1 tpl).template)).template
      = (addCloudwatchPolicy "aws" retainLogs s1 inv1 sn1 tpl).template := by
  have htpl := template_of_ok _ _ _ _ _ _ hok1
  rw [htpl] at hfresh ⊢
  rw [addCloudwatchPolicy_aws_none]
  refine ⟨rfl, ?_⟩
  unfold reconcileTemplate dedupStep
  unfold reconcileTemplate dedupStep at hfresh
  cases retainLogs with
  | false =>
    rw [if_neg (by simp), if_neg (by simp)]
    exact applyPolicy_idem false tpl
  | true =>
    rw [if_pos rfl, if_pos rfl]
    rw [if_pos rfl] at hfresh
    have hdup2 : duplicateKeys
        (collectLogGroups (applyPolicy true
          (purgeDuplicates (duplicateKeys (collectLogGroups tpl) inv1) tpl))) inv2
        = [] := by
      apply duplicateKeys_eq_nil
      intro p hp
      rcases mem_collectLogGroups.mp hp with ⟨hpm, hpt⟩
      exact hfresh p hpm hpt
    rw [hdup2, purgeDuplicates_nil]
    exact applyPolicy_idem true
      (purgeDuplicates (duplicateKeys (collectLogGroups tpl) inv1) tpl)

/-- C8 witness: repeating the Scenario-B run on its own output, with the
inventory still reporting the already-removed first log group, succeeds and
leaves the template identical. -/
theorem C8_second_run_no_change_witness :
    (addCloudwatchPolicy "aws" true none ["/aws/lambda/first-log-group"]
        "mock-test-stack"
        ((addCloudwatchPolicy "aws" true none ["/aws/lambda/first-log-group"]
          "mock-test-stack" demoTemplate).template)).result = RResult.ok ∧
    (addCloudwatchPolicy "aws" true none ["/aws/lambda/first-log-group"]
        "mock-test-stack"
        ((addCloudwatchPolicy "aws" true none ["/aws/lambda/first-log-group"]
          "mock-test-stack" demoTemplate).template)).template
      = (addCloudwatchPolicy "aws" true none ["/aws/lambda/first-log-group"]
          "mock-test-stack" demoTemplate).template :=
  C8_second_run_no_change true none ["/aws/lambda/first-log-group"]
    ["/aws/lambda/first-log-group"] "mock-test-stack" "mock-test-stack" demoTemplate
    (by decide) (by decide)

/-- C10: a successful reconcile adds no resource (every remaining entry stems
from an entry of the supplied template with the same identifier); the only
removed entries are log-group candidates whose declared name the inventory
reported; and every remaining resource keeps its type and properties, its
DependsOn only shrinks as a subsequence, and for a non-log-group resource
even the DeletionPolicy is untouched. -/
theorem C10_frame (providerName : String) (retainLogs : Bool)
    (stackResp : Option QueryError) (existingLogs : List String) (stackName : String)
    (tpl : Template) (hnd : (keys tpl).Nodup)
    (hok : (addCloudwatchPolicy providerName retainLogs stackResp existingLogs
        stackName tpl).result = RResult.ok) :
    (∀ p ∈ (addCloudwatchPolicy providerName retainLogs stackResp existingLogs
        stackName tpl).template,
      ∃ r, (p.1, r) ∈ tpl ∧ p.2.Type' = r.Type' ∧ p.2.Properties = r.Properties
        ∧ depsShrink p.2.DependsOn r.DependsOn
        ∧ (¬ r.Type' = logGroupType → p.2.DeletionPolicy = r.DeletionPolicy)) ∧
    (∀ p ∈ tpl,
      p.1 ∉ keys (addCloudwatchPolicy providerName retainLogs stackResp existingLogs
        stackName tpl).template →
      p.2.Type' = logGroupType ∧ p.2.Properties.LogGroupName ∈ existingLogs) := by
  rw [template_of_ok _ _ _ _ _ _ hok]
  unfold reconcileTemplate dedupStep
  cases retainLogs with
  | false =>
    rw [if_neg (by simp)]
    constructor
    · intro p hp
      rcases mem_applyPolicy.mp hp with ⟨q, hq, hpq⟩
      refine ⟨q.2, ?_, ?_, ?_, ?_, ?_⟩
      · have hfst : p.1 = q.1 := by rw [← hpq, applyPolicyEntry_fst]
        rw [hfst]
        exact hq
      · rw [← hpq, applyPolicyEntry_Type]
      · rw [← hpq, applyPolicyEntry_Properties]
      · have hdeps : p.2.DependsOn = q.2.DependsOn := by
          rw [← hpq, applyPolicyEntry_DependsOn]
        rw [hdeps]
        exact depsShrink_refl _
      · intro hnt
        rw [← hpq]
        exact applyPolicyEntry_policy_of_ne _ _ hnt
    · intro p hp hnk
      exfalso
      apply hnk
      rw [keys_applyPolicy]
      exact mem_keys.mpr ⟨p.2, hp⟩
  | true =>
    rw [if_pos rfl]
    constructor
    · intro p hp
      rcases mem_applyPolicy.mp hp with ⟨q, hq, hpq⟩
      rcases mem_purgeDuplicates.mp hq with ⟨p0, hp0, hc0, hpe⟩
      refine ⟨p0.2, ?_, ?_, ?_, ?_, ?_⟩
      · have h1 : q.1 = p0.1 := by rw [← hpe, purgeEntry_fst]
        have h2 : p.1 = q.1 := by rw [← hpq, applyPolicyEntry_fst]
        rw [h2, h1]
        exact hp0
      · rw [← hpq, applyPolicyEntry_Type, ← hpe, purgeEntry_Type]
      · rw [← hpq, applyPolicyEntry_Properties, ← hpe, purgeEntry_Properties]
      · have hd1 : p.2.DependsOn = q.2.DependsOn := by
          rw [← hpq, applyPolicyEntry_DependsOn]
        have hd2 : q.2.DependsOn = p0.2.DependsOn.map
            (fun l => l.filter (fun d =>
              !((duplicateKeys (collectLogGroups tpl) existingLogs).contains d))) := by
          rw [← hpe, purgeEntry_DependsOn]
        rw [hd1, hd2]
        exact depsShrink_filter _ _
      · intro hnt
        have hqt : ¬ q.2.Type' = logGroupType := by
          rw [← hpe, purgeEntry_Type]
          exact hnt
        have h1 : p.2.DeletionPolicy = q.2.DeletionPolicy := by
          rw [← hpq]
          exact applyPolicyEntry_policy_of_ne _ _ hqt
        have h2 : q.2.DeletionPolicy = p0.2.DeletionPolicy := by
          rw [← hpe, purgeEntry_policy]
        rw [h1, h2]
    · intro p hp hnk
      rw [keys_applyPolicy] at hnk
      have hdup : p.1 ∈ duplicateKeys (collectLogGroups tpl) existingLogs := by
        by_cases hd : p.1 ∈ duplicateKeys (collectLogGroups tpl) existingLogs
        · exact hd
        · exfalso
          apply hnk
          exact mem_keys_purge.mpr ⟨⟨p.2, hp⟩, contains_eq_false_iff.mpr hd⟩
      rcases mem_duplicateKeys.mp hdup with ⟨n, hn, hlk⟩
      rcases logGroupLookup_some hlk with ⟨r, hrc, hrn⟩
      rcases mem_collectLogGroups.mp hrc with ⟨hrt, hrty⟩
      have hr2 : r = p.2 := key_unique hnd hrt hp
      constructor
      · rw [← hr2]
        exact hrty
      · rw [← hr2, hrn]
        exact hn

/-- C10 witness: the frame conditions hold for the concrete Scenario-B run on
the test-suite template. -/
theorem C10_frame_witness :
    (∀ p ∈ (addCloudwatchPolicy "aws" true none ["/aws/lambda/first-log-group"]
        "mock-test-stack" demoTemplate).template,
      ∃ r, (p.1, r) ∈ demoTemplate ∧ p.2.Type' = r.Type' ∧ p.2.Properties = r.Properties
        ∧ depsShrink p.2.DependsOn r.DependsOn
        ∧ (¬ r.Type' = logGroupType → p.2.DeletionPolicy = r.DeletionPolicy)) ∧
    (∀ p ∈ demoTemplate,
      p.1 ∉ keys (addCloudwatchPolicy "aws" true none ["/aws/lambda/first-log-group"]
        "mock-test-stack" demoTemplate).template →
      p.2.Type' = logGroupType ∧
        p.2.Properties.LogGroupName ∈ ["/aws/lambda/first-log-group"]) :=
  C10_frame "aws" true none ["/aws/lambda/first-log-group"] "mock-test-stack"
    demoTemplate (by decide) (by decide)

end CloudwatchRetention
